import Mathlib

/-!
Verification development for the GEA/GLAB certification portal (`src/app.py`).

The portal is a Flask application over a relational store.  We embed the
database state as lists of records, each request handler as a pure function
from state (plus the authenticated actor and the request parameters) to a new
state and a response, and prove properties of those functions.

Conventions of the embedding:
* Tables are Lean lists; rows referenced through autoincrement primary keys
  that the handlers compare (`User.id`, `GLAB.id`, `Client.id`, `Project.id`)
  carry an explicit `id` field, while rows that handlers only fetch by key
  (`Document`, `ChecklistItem`) are addressed by their list position (rows are
  never deleted, so positions are stable stand-ins for autoincrement ids).
* Python `float` values (the fee columns) are embedded exactly as dyadic
  rationals `m * 2 ^ e` (`F64`), with IEEE-754 binary64 round-to-nearest-even
  arithmetic, ignoring overflow and subnormals (irrelevant at fee magnitudes).
* `datetime` values are embedded as needed by the logic that reads them:
  project creation instants as a (year, offset-within-year) pair ordered
  lexicographically (`DateT`), and the day-granularity due dates of the
  reminder scan as integer day indices.
* Wall-clock reads (`datetime.now()`, `datetime.utcnow()`) become explicit
  parameters; `*_at` audit timestamp columns, which no handler ever reads,
  are omitted from the record types.
* A handler that raises (404, or an uncaught exception rolled back by the
  dashboard-level handler) leaves the state unchanged.
-/

namespace GeaPortal

set_option maxRecDepth 1000000

/-! ## Exact binary64 model

Python floats are IEEE-754 binary64.  A finite double is `m * 2 ^ e` with
`|m| < 2 ^ 53`; we represent values as such (not necessarily normalized)
pairs and round every arithmetic result to 53 significand bits with
round-to-nearest, ties-to-even. -/

/-- Bit length of a natural number, via structural recursion on a fuel
argument (`n` itself is always enough fuel). -/
def bitsAux : Nat → Nat → Nat
  | 0, _ => 0
  | fuel + 1, n => if n = 0 then 0 else bitsAux fuel (n / 2) + 1

/-- Bit length of `n` (`0` for `0`). -/
def bits (n : Nat) : Nat := bitsAux n n

/-- A binary64 value, represented exactly as the dyadic rational `m * 2 ^ e`. -/
structure F64 where
  m : Int
  e : Int
deriving DecidableEq, Repr

/-- Round the exact dyadic `m * 2 ^ e` to 53 significand bits,
round-to-nearest with ties-to-even. -/
def rnd (m : Int) (e : Int) : F64 :=
  if m = 0 then ⟨0, 0⟩
  else
    let s : Int := if m < 0 then -1 else 1
    let n : Nat := m.natAbs
    let b : Nat := bits n
    if b ≤ 53 then ⟨m, e⟩
    else
      let k : Nat := b - 53
      let q : Nat := n >>> k
      let r : Nat := n - (q <<< k)
      let half : Nat := 1 <<< (k - 1)
      let q' : Nat := if half < r then q + 1
                      else if r < half then q
                      else if q % 2 = 0 then q else q + 1
      ⟨s * (q' : Int), e + (k : Int)⟩

/-- The binary64 value nearest to `num / den` (`den ≠ 0`); this is what
Python produces when parsing a decimal literal or form field. -/
def ofRat (num : Int) (den : Nat) : F64 :=
  if num = 0 then ⟨0, 0⟩
  else
    let s : Int := if num < 0 then -1 else 1
    let n : Nat := num.natAbs
    let j : Nat := 54 + bits den
    let q : Nat := (n <<< j) / den
    let r : Nat := (n <<< j) % den
    let b : Nat := bits q
    let k : Nat := b - 53
    let qh : Nat := q >>> k
    let low : Nat := q - (qh <<< k)
    let half : Nat := 1 <<< (k - 1)
    let q' : Nat := if half < low then qh + 1
                    else if low < half then qh
                    else if 0 < r then qh + 1
                    else if qh % 2 = 0 then qh else qh + 1
    ⟨s * (q' : Int), (k : Int) - (j : Int)⟩

/-- Binary64 multiplication (`x * y` on Python floats). -/
def fmul (a b : F64) : F64 := rnd (a.m * b.m) (a.e + b.e)

/-- Binary64 addition (`x + y` on Python floats). -/
def fadd (a b : F64) : F64 :=
  if a.e ≤ b.e then rnd (a.m + b.m * ((2 ^ (b.e - a.e).toNat : Nat) : Int)) a.e
  else rnd (a.m * ((2 ^ (a.e - b.e).toNat : Nat) : Int) + b.m) b.e

/-- Value equality of two represented doubles (`x == y` on Python floats). -/
def feq (a b : F64) : Bool :=
  if a.e ≤ b.e then a.m == b.m * ((2 ^ (b.e - a.e).toNat : Nat) : Int)
  else a.m * ((2 ^ (a.e - b.e).toNat : Nat) : Int) == b.m

/-- The double written `0.15` in `create_project` (`# Calculate GEA fee (15%)`). -/
def c15f : F64 := ofRat 3 20

/-- The double written `0.85` in `create_project`. -/
def c85f : F64 := ofRat 17 20

/-- The double `0.0`, default of the fee columns. -/
def f0 : F64 := ⟨0, 0⟩

/-! ## The static `PHASES` template

`PHASES` is a module-level dict keyed by the phase numbers 1..8, in insertion
order.  We embed the per-phase `default_checklist` and `gea_review_checklist`
entries; the phase names and document slots are not read by any claimed
logic. -/

/-- The `default_checklist` list of `PHASES[n]` (empty for `n` outside 1..8). -/
def default_checklist : Nat → List String
  | 1 => ["Enrollment form received and complete",
          "Eligibility criteria verified",
          "Organizational scope defined",
          "Multi-site requirements clarified (if applicable)",
          "Timeline expectations documented",
          "Resource commitment confirmed",
          "Preliminary risk assessment completed",
          "Enrollment decision communicated"]
  | 2 => ["Conflict of interest declarations obtained",
          "All conflicts reviewed and resolved",
          "Assessor competencies matched to scope",
          "Code of conduct acknowledged",
          "Team composition finalized",
          "Confidentiality agreements signed",
          "Assessment team briefing conducted",
          "Organization notified of team assignment"]
  | 3 => ["Preliminary assessment request received",
          "Scope and objectives clarified",
          "Implementation evidence reviewed",
          "Leadership interviews conducted",
          "Cultural/operational observations completed",
          "Preliminary findings documented",
          "Improvement recommendations identified",
          "Preliminary report delivered",
          "Improvement period timeline agreed"]
  | 4 => ["Readiness verification completed",
          "Letter of Engagement drafted",
          "Scope and boundaries confirmed",
          "Assessment timeline developed",
          "Site visit schedule finalized",
          "Resource requirements confirmed",
          "Communication protocols established",
          "Logistics arrangements completed",
          "Stakeholder responsibilities defined",
          "Engagement documents signed",
          "Initial payment (50%) collected",
          "GEA fee remitted for initial payment"]
  | 5 => ["Document review completed",
          "Assessment tools prepared",
          "Evidence requirements communicated",
          "Opening meeting conducted",
          "All 8 dimensions assessed",
          "Triangulation methodology applied",
          "Evidence collection documented",
          "Root cause analysis performed",
          "Non-conformances identified",
          "CARs issued as required",
          "Daily team debriefs conducted",
          "Closing meeting held",
          "Evidence organized and secured",
          "Finding validation completed",
          "Non-conformance tracker updated"]
  | 6 => ["Draft report prepared",
          "Evidence references verified",
          "Cross-dimensional analysis completed",
          "Report structure compliance checked",
          "Peer reviewer assigned",
          "Peer review conducted",
          "Review feedback addressed",
          "Final report approved",
          "Report delivered to GLAB"]
  | 7 => ["Report submitted for decision",
          "Certification criteria evaluated",
          "Risk assessment completed",
          "Decision record prepared",
          "Feedback report developed",
          "Decision communicated to organization",
          "Certificate issued (if applicable)",
          "Appeals process explained",
          "Final payment (50%) collected",
          "GEA fee remitted for final payment"]
  | 8 => ["Change notification process explained",
          "Surveillance schedule established",
          "Continuous improvement expectations set",
          "Feedback on GLAB services requested",
          "Assessment documents archived",
          "Confidential materials returned/destroyed",
          "Final billing processed",
          "Case study permissions obtained (optional)"]
  | _ => []

/-- The `gea_review_checklist` list of `PHASES[n]`: the GEA review gate
criteria attached to each phase (every phase 1..8 has a non-empty one). -/
def gea_review_checklist : Nat → List String
  | 1 => ["Enrollment form complete and accurate",
          "Organization meets eligibility criteria",
          "Scope appropriately defined",
          "Risk assessment is adequate"]
  | 2 => ["All COI declarations submitted",
          "No unresolved conflicts of interest",
          "Assessor team appropriately qualified",
          "Code of conduct signed by all assessors"]
  | 3 => ["Preliminary report follows required format",
          "Findings are objective and evidence-based",
          "Recommendations are appropriate",
          "Improvement timeline is reasonable"]
  | 4 => ["Letter of Engagement properly executed",
          "Scope is clearly defined",
          "Timeline is realistic",
          "Initial payment received",
          "GEA fee remitted"]
  | 5 => ["All dimensions properly assessed",
          "Triangulation properly applied",
          "Evidence is sufficient and verifiable",
          "Non-conformances appropriately identified",
          "CARs properly documented"]
  | 6 => ["Report follows required format",
          "All findings are evidence-based",
          "Cross-dimensional analysis is comprehensive",
          "Peer review properly conducted",
          "Feedback has been addressed"]
  | 7 => ["Decision is supported by evidence",
          "Decision record is complete",
          "Feedback report is objective",
          "Final payment received",
          "GEA fee remitted",
          "Certificate ready for issuance (if approved)"]
  | 8 => ["Surveillance schedule is appropriate",
          "All documentation properly archived",
          "Organization informed of obligations",
          "Feedback collected"]
  | _ => []

/-- Does `PHASES[n]` carry a GEA review gate?  In the shipped template every
phase 1..8 has a non-empty `gea_review_checklist`. -/
def phase_has_gea_gate (n : Nat) : Bool := !(gea_review_checklist n).isEmpty

/-! ## Dates -/

/-- A `datetime` instant as (calendar year, offset within that year),
ordered lexicographically; enough structure for the only comparison the
handlers make (`created_at >= datetime(year, 1, 1)`). -/
structure DateT where
  year : Nat
  sub : Nat
deriving DecidableEq, Repr

/-- The Boolean order on instants (`a <= b`). -/
def dtLe (a b : DateT) : Bool :=
  Nat.blt a.year b.year || (a.year == b.year && Nat.ble a.sub b.sub)

/-- Midnight, January 1 of `y` (`datetime(year, 1, 1)`). -/
def jan1 (y : Nat) : DateT := ⟨y, 0⟩

/-! ## Database records -/

/-- A `User` row (the columns the embedded handlers read). -/
structure User where
  id : Nat
  username : String
  role : String
  glab_id : Option Nat
  client_id : Option Nat
  is_active : Bool
  recertification_due : Option Int
deriving DecidableEq, Repr

/-- Membership of `User.is_gea`: GEA admin or staff. -/
def is_gea (u : User) : Bool := u.role == "gea_admin" || u.role == "gea_staff"

/-- Membership of `User.is_gea_admin`. -/
def is_gea_admin (u : User) : Bool := u.role == "gea_admin"

/-- A `GLAB` row. -/
structure GLAB where
  id : Nat
  name : String
  license_number : String
  status : String
  next_payment_due : Option Int
deriving DecidableEq, Repr

/-- A `Client` row (`glab_id` is nullable). -/
structure Client where
  id : Nat
  name : String
  glab_id : Option Nat
deriving DecidableEq, Repr

/-- A `Project` row.  `assessors` embeds the `project_assessors`
association rows of this project (the ids of the assigned users). -/
structure Project where
  id : Nat
  reference_number : String
  glab_id : Nat
  client_id : Nat
  assessment_type : String
  current_phase : Nat
  gea_status : String
  gea_notes : String
  gea_reviewed_by : Option Nat
  total_assessment_fees : F64
  gea_fee : F64
  glab_revenue : F64
  initial_payment_received : Bool
  final_payment_received : Bool
  gea_fee_remitted : Bool
  created_at : DateT
  created_by : Option Nat
  assessors : List Nat
deriving DecidableEq, Repr

/-- A `Document` row (addressed by list position). -/
structure Document where
  project_id : Nat
  phase_number : Nat
  document_key : String
  status : String
  review_notes : String
  reviewed_by : Option Nat
  uploaded_by : Nat
deriving DecidableEq, Repr

/-- A `ChecklistItem` row (addressed by list position). -/
structure ChecklistItem where
  project_id : Nat
  phase_number : Nat
  item_text : String
  is_required : Bool
  is_custom : Bool
  is_completed : Bool
  completed_by : Option Nat
  order : Nat
deriving DecidableEq, Repr

/-- A `PhaseLog` row. -/
structure PhaseLog where
  project_id : Nat
  from_phase : Option Nat
  to_phase : Nat
  action : String
  performed_by : Option Nat
deriving DecidableEq, Repr

/-- A `ScheduledReminder` row; the table carries a unique constraint on
(`reminder_type`, `target_type`, `target_id`, `days_before`). -/
structure ScheduledReminder where
  reminder_type : String
  target_type : String
  target_id : Nat
  due_date : Int
  days_before : Nat
  sent : Bool
deriving DecidableEq, Repr

/-! ## Helper functions of `app.py` -/

/-- Python `f-string` formatting with `:04d` (zero-pad to at least four
digits). -/
def pad4 (n : Nat) : String :=
  let d := toString n
  if 4 ≤ d.length then d else String.mk (List.replicate (4 - d.length) '0') ++ d

/-- `generate_reference_number(glab)`: license number, current year, and a
zero-padded counter of one plus the number of this GLAB's projects created
since January 1 of the current year. -/
def generate_reference_number (projects : List Project) (glab : GLAB) (now : DateT) :
    String :=
  let count :=
    (projects.filter
      (fun p => p.glab_id == glab.id && dtLe (jan1 now.year) p.created_at)).length + 1
  glab.license_number ++ "-" ++ toString now.year ++ "-" ++ pad4 count

/-- One row added by `create_default_checklists`: `is_required=True`,
`is_custom=False`, completion at its column default `False`, `order` the
enumeration index. -/
def seed_row (pid ph : Nat) (it : Nat × String) : ChecklistItem :=
  { project_id := pid, phase_number := ph, item_text := it.2,
    is_required := true, is_custom := false, is_completed := false,
    completed_by := none, order := it.1 }

/-- The rows the inner loop of `create_default_checklists` adds for one phase:
one `ChecklistItem` per `default_checklist` entry. -/
def seed_phase_items (pid ph : Nat) : List ChecklistItem :=
  (default_checklist ph).enum.map (seed_row pid ph)

/-- `create_default_checklists(project)`: the loop over `PHASES.items()`
(insertion order 1..8) unrolled. -/
def create_default_checklists (pid : Nat) : List ChecklistItem :=
  seed_phase_items pid 1 ++ seed_phase_items pid 2 ++ seed_phase_items pid 3 ++
  seed_phase_items pid 4 ++ seed_phase_items pid 5 ++ seed_phase_items pid 6 ++
  seed_phase_items pid 7 ++ seed_phase_items pid 8

/-! ## The reminder scan (`check_and_send_reminders`) -/

/-- The duplicate-suppression key of a reminder row: the columns of the
table's unique constraint. -/
def remKey (r : ScheduledReminder) : String × String × Nat × Nat :=
  (r.reminder_type, r.target_type, r.target_id, r.days_before)

/-- The `filter_by` predicate used to look up an existing reminder row. -/
def remMatch (rt tt : String) (tid : Nat) (days : Nat) (r : ScheduledReminder) :
    Bool :=
  r.reminder_type == rt && r.target_type == tt && r.target_id == tid &&
    r.days_before == days

/-- Set `sent=True` on the first row matching the key (the ORM mutates the
object returned by `.first()`). -/
def markSent (rt tt : String) (tid : Nat) (days : Nat) :
    List ScheduledReminder → List ScheduledReminder
  | [] => []
  | r :: rs =>
      if remMatch rt tt tid days r then { r with sent := true } :: rs
      else r :: markSent rt tt tid days rs

/-- One iteration of the inner `for days in reminder_days` loop: if today is
exactly `days` before the due date, look up the reminder row for this
(type, target, days) key and either insert it (already marked sent) or mark
the unsent existing row sent; otherwise do nothing. -/
def processReminder (today : Int) (rt tt : String) (tid : Nat) (due : Int)
    (rems : List ScheduledReminder) (days : Nat) : List ScheduledReminder :=
  if today == due - (days : Int) then
    match rems.find? (remMatch rt tt tid days) with
    | none =>
        rems ++ [{ reminder_type := rt, target_type := tt, target_id := tid,
                   due_date := due, days_before := days, sent := true }]
    | some r => if !r.sent then markSent rt tt tid days rems else rems
  else rems

/-- The `reminder_days` list. -/
def reminder_days : List Nat := [60, 30, 15, 5]

/-- The GLAB license-payment half of the scan, for one GLAB (the query
filters on a non-null due date and `status == 'active'`). -/
def glabReminderStep (today : Int) (rems : List ScheduledReminder) (g : GLAB) :
    List ScheduledReminder :=
  match g.next_payment_due with
  | none => rems
  | some due =>
      if g.status == "active" then
        reminder_days.foldl (processReminder today "license_payment" "glab" g.id due)
          rems
      else rems

/-- The assessor recertification half of the scan, for one user (the query
filters on role, a non-null due date, and `is_active`). -/
def assessorReminderStep (today : Int) (rems : List ScheduledReminder) (u : User) :
    List ScheduledReminder :=
  match u.recertification_due with
  | none => rems
  | some due =>
      if u.role == "glab_assessor" && u.is_active then
        reminder_days.foldl (processReminder today "recertification" "assessor" u.id due)
          rems
      else rems

/-- `check_and_send_reminders()` restricted to its effect on the
`ScheduledReminder` table (the notification fan-out writes a different
table). -/
def check_and_send_reminders (today : Int) (glabs : List GLAB) (users : List User)
    (rems : List ScheduledReminder) : List ScheduledReminder :=
  (glabs.foldl (glabReminderStep today) rems) |>
    (users.foldl (assessorReminderStep today) ·)

/-! ## Portal state and request handlers -/

/-- The database state: one list per table the embedded handlers touch. -/
structure St where
  users : List User
  glabs : List GLAB
  clients : List Client
  projects : List Project
  documents : List Document
  checklists : List ChecklistItem
  phase_logs : List PhaseLog
  reminders : List ScheduledReminder
deriving DecidableEq, Repr

/-- `Project.query.get(project_id)`. -/
def findProject (s : St) (pid : Nat) : Option Project :=
  s.projects.find? (fun p => p.id == pid)

/-- `User.query.get(user_id)`. -/
def findUser (s : St) (uid : Nat) : Option User :=
  s.users.find? (fun u => u.id == uid)

/-- `GLAB.query.get(glab_id)`. -/
def findGlab (s : St) (gid : Nat) : Option GLAB :=
  s.glabs.find? (fun g => g.id == gid)

/-- `Client.query.get(client_id)`. -/
def findClient (s : St) (cid : Nat) : Option Client :=
  s.clients.find? (fun c => c.id == cid)

/-- Write back a mutated project row. -/
def updateProject (s : St) (pid : Nat) (f : Project → Project) : St :=
  { s with projects := s.projects.map fun p => if p.id == pid then f p else p }

/-- The autoincrement id the database would assign to a new project. -/
def nextProjectId (s : St) : Nat :=
  (s.projects.foldl (fun a p => max a p.id) 0) + 1

/-- The row mutation of `advance_phase`: `project.current_phase += 1`. -/
def advance_update (q : Project) : Project :=
  { q with current_phase := q.current_phase + 1 }

/-- The row mutation of `review_project`: record the verdict, the notes and
the reviewer. -/
def review_update (action notes : String) (reviewer : Nat) (q : Project) :
    Project :=
  { q with gea_status := action, gea_notes := notes,
           gea_reviewed_by := some reviewer }

/-- The row mutation of `assign_assessor`: append the assessor to the
project's association rows. -/
def assign_update (uid : Nat) (q : Project) : Project :=
  { q with assessors := q.assessors ++ [uid] }

/-- The row mutation of `remove_assessor`: drop the assessor from the
project's association rows. -/
def remove_update (uid : Nat) (q : Project) : Project :=
  { q with assessors := q.assessors.erase uid }

/-- Outcome of a request: flash category plus redirect, or a 404. -/
inductive Resp where
  | ok (msg : String)
  | err (msg : String)
  | warn (msg : String)
  | redirect
  | notFound
deriving DecidableEq, Repr

/-- Outcome of a read-only view: rendered, refused, or 404. -/
inductive Access where
  | granted
  | denied
  | notFound
deriving DecidableEq, Repr

/-- `advance_phase` (`POST /projects/<id>/advance`): deny outsiders, warn
at the final phase, otherwise increment `current_phase` and append one
`PhaseLog` row. -/
def advance_phase (s : St) (actor : User) (project_id : Nat) : St × Resp :=
  match findProject s project_id with
  | none => (s, .notFound)
  | some p =>
      if !is_gea actor && actor.glab_id != some p.glab_id then
        (s, .err "Access denied.")
      else if 8 ≤ p.current_phase then
        (s, .warn "Project is already in the final phase.")
      else
        let s1 := updateProject s project_id advance_update
        let lg : PhaseLog :=
          { project_id := project_id, from_phase := some p.current_phase,
            to_phase := p.current_phase + 1, action := "advanced",
            performed_by := some actor.id }
        ({ s1 with phase_logs := s1.phase_logs ++ [lg] },
         .ok ("Project advanced to Phase " ++ toString (p.current_phase + 1)))

/-- `review_project` (`POST /projects/<id>/review`, `@gea_required`): set
the project's GEA review status when the action is one of the three review
verdicts. -/
def review_project (s : St) (actor : User) (project_id : Nat)
    (action notes : String) : St × Resp :=
  if !is_gea actor then (s, .err "Access denied. GEA privileges required.")
  else
    match findProject s project_id with
    | none => (s, .notFound)
    | some _ =>
        if action == "approved" || action == "changes_requested" ||
            action == "denied" then
          (updateProject s project_id (review_update action notes actor.id),
           .ok "Project reviewed.")
        else (s, .redirect)

/-- `toggle_checklist` (`POST /projects/<pid>/checklist/<iid>/toggle`): GLAB
users flip a checklist item's completion flag. -/
def toggle_checklist (s : St) (actor : User) (project_id item_idx : Nat) :
    St × Resp :=
  match s.checklists.get? item_idx, findProject s project_id with
  | some item, some p =>
      if is_gea actor then
        (s, .err "Only GLAB users can mark checklist items.")
      else if !(p.assessors.contains actor.id) && actor.role != "glab_admin" &&
          actor.glab_id != some p.glab_id then
        (s, .err "Access denied.")
      else
        let c := !item.is_completed
        let item' : ChecklistItem :=
          { item with is_completed := c,
                      completed_by := if c then some actor.id else none }
        ({ s with checklists := s.checklists.set item_idx item' }, .ok "toggled")
  | _, _ => (s, .notFound)

/-- `add_checklist_item` (`@gea_admin_required`): append a custom required
item after the current maximum order of that phase. -/
def add_checklist_item (s : St) (actor : User) (project_id : Nat)
    (phase_form : Option Nat) (text : String) : St × Resp :=
  if !is_gea_admin actor then
    (s, .err "Access denied. GEA Admin privileges required.")
  else
    match findProject s project_id with
    | none => (s, .notFound)
    | some p =>
        let ph := phase_form.getD p.current_phase
        let max_order :=
          (s.checklists.filter
            (fun it => it.project_id == project_id && it.phase_number == ph)).foldl
            (fun a it => max a it.order) 0
        ({ s with checklists := s.checklists ++
            [{ project_id := project_id, phase_number := ph, item_text := text,
               is_required := true, is_custom := true, is_completed := false,
               completed_by := none, order := max_order + 1 }] },
         .ok "Checklist item added.")

/-- `review_document` (`@gea_required`): set a document's review status when
the action is one of the three review verdicts. -/
def review_document (s : St) (actor : User) (document_idx : Nat)
    (action notes : String) : St × Resp :=
  if !is_gea actor then (s, .err "Access denied. GEA privileges required.")
  else
    match s.documents.get? document_idx with
    | none => (s, .notFound)
    | some doc =>
        if action == "approved" || action == "changes_requested" ||
            action == "denied" then
          let doc' : Document :=
            { doc with status := action, review_notes := notes,
                       reviewed_by := some actor.id }
          ({ s with documents := s.documents.set document_idx doc' },
           .ok "Document reviewed.")
        else (s, .redirect)

/-- `upload_document`: assessors must be assigned; the file must pass the
extension allow-list; a new `Document` row is added at the project's current
phase with status at its column default `'pending'`. -/
def upload_document (s : St) (actor : User) (project_id : Nat)
    (document_key : String) (file_ok : Bool) : St × Resp :=
  match findProject s project_id with
  | none => (s, .notFound)
  | some p =>
      if actor.role == "glab_assessor" && !(p.assessors.contains actor.id) then
        (s, .err "Access denied.")
      else if !file_ok then (s, .err "Invalid file type.")
      else
        ({ s with documents := s.documents ++
            [{ project_id := project_id, phase_number := p.current_phase,
               document_key := document_key, status := "pending",
               review_notes := "", reviewed_by := none,
               uploaded_by := actor.id }] },
         .ok "Document uploaded successfully.")

/-- `toggle_user` (`POST /users/<id>/toggle`, `@gea_admin_required`): flip a
user's `is_active`, refusing when the target is the caller's own account. -/
def toggle_user (s : St) (actor : User) (user_id : Nat) : St × Resp :=
  if !is_gea_admin actor then
    (s, .err "Access denied. GEA Admin privileges required.")
  else
    match findUser s user_id with
    | none => (s, .notFound)
    | some u =>
        if u.id == actor.id then
          (s, .err "Cannot deactivate your own account.")
        else
          ({ s with users := s.users.map fun v =>
              if v.id == user_id then { v with is_active := !v.is_active } else v },
           .ok (if !u.is_active then "activated" else "deactivated"))

/-- `create_project`: generate the reference number, apply the 15%/85% fee
split to the entered total, insert the project at phase 1, seed the default
checklists for every phase, and append the `'created'` log row.
`total_fees` is the double produced by `float(...)` on the posted form
field. -/
def create_project (s : St) (actor : User) (glab_id_form : Option Nat)
    (client_id : Nat) (assessment_type : String) (total_fees : F64)
    (now : DateT) : St × Resp :=
  if actor.role == "glab_assessor" then
    (s, .err "Assessors cannot create projects.")
  else
    let gid : Option Nat := if is_gea actor then glab_id_form else actor.glab_id
    match gid.bind (findGlab s) with
    | none => (s, .err "error")
    | some glab =>
        let pid := nextProjectId s
        let proj : Project :=
          { id := pid,
            reference_number := generate_reference_number s.projects glab now,
            glab_id := glab.id, client_id := client_id,
            assessment_type := assessment_type, current_phase := 1,
            gea_status := "pending", gea_notes := "", gea_reviewed_by := none,
            total_assessment_fees := total_fees,
            gea_fee := fmul total_fees c15f,
            glab_revenue := fmul total_fees c85f,
            initial_payment_received := false, final_payment_received := false,
            gea_fee_remitted := false, created_at := now,
            created_by := some actor.id, assessors := [] }
        let lg : PhaseLog :=
          { project_id := pid, from_phase := none, to_phase := 1,
            action := "created", performed_by := some actor.id }
        ({ s with projects := s.projects ++ [proj],
                  checklists := s.checklists ++ create_default_checklists pid,
                  phase_logs := s.phase_logs ++ [lg] },
         .ok "Project created successfully.")

/-- `assign_assessor`: GEA or the owning GLAB's admin attach an assessor of
the project's GLAB. -/
def assign_assessor (s : St) (actor : User) (project_id assessor_id : Nat) :
    St × Resp :=
  match findProject s project_id with
  | none => (s, .notFound)
  | some p =>
      if actor.role == "glab_admin" && some p.glab_id != actor.glab_id then
        (s, .err "Access denied.")
      else if !is_gea actor && actor.role != "glab_admin" then
        (s, .err "Access denied.")
      else
        match findUser s assessor_id with
        | none => (s, .notFound)
        | some a =>
            if a.glab_id != some p.glab_id then
              (s, .err "Assessor does not belong to this GLAB.")
            else if !(p.assessors.contains a.id) then
              (updateProject s project_id (assign_update a.id),
               .ok "Assessor assigned.")
            else (s, .err "Assessor already assigned")

/-- `remove_assessor`: GEA or a GLAB admin detach an assessor. -/
def remove_assessor (s : St) (actor : User) (project_id assessor_id : Nat) :
    St × Resp :=
  match findProject s project_id with
  | none => (s, .notFound)
  | some p =>
      if actor.role == "glab_admin" && some p.glab_id != actor.glab_id then
        (s, .err "Access denied.")
      else if !is_gea actor && actor.role != "glab_admin" then
        (s, .err "Access denied.")
      else
        match findUser s assessor_id with
        | none => (s, .notFound)
        | some a =>
            if p.assessors.contains a.id then
              (updateProject s project_id (remove_update a.id),
               .ok "Assessor removed.")
            else (s, .err "Assessor not assigned to this project")

/-- The `before_request` reminder hook's effect on the database. -/
def run_reminders (today : Int) (s : St) : St :=
  { s with reminders := check_and_send_reminders today s.glabs s.users s.reminders }

/-- `view_client` (`GET /clients/<id>`): non-GEA users may only view clients
of their own GLAB. -/
def view_client_access (s : St) (actor : User) (client_id : Nat) : Access :=
  match findClient s client_id with
  | none => .notFound
  | some c =>
      if !is_gea actor && c.glab_id != actor.glab_id then .denied else .granted

/-- `view_project` (`GET /projects/<id>`): assessors must be assigned; other
non-GEA users must belong to the owning GLAB. -/
def view_project_access (s : St) (actor : User) (project_id : Nat) : Access :=
  match findProject s project_id with
  | none => .notFound
  | some p =>
      if actor.role == "glab_assessor" then
        if !(p.assessors.contains actor.id) then .denied else .granted
      else if !is_gea actor && some p.glab_id != actor.glab_id then .denied
      else .granted

/-- `download_document` (`GET /documents/<id>/download`): the handler fetches
the row and serves the stored file; beyond `@login_required` it performs no
check at all. -/
def download_document_access (s : St) (_actor : User) (document_idx : Nat) :
    Access :=
  match s.documents.get? document_idx with
  | none => .notFound
  | some _ => .granted

/-! ## The operation alphabet

One constructor per embedded handler; `step` discards the response. -/

/-- A portal operation: an authenticated request to one of the embedded
handlers, with its parameters. -/
inductive Op where
  | opAdvance (actor : User) (project_id : Nat)
  | opReview (actor : User) (project_id : Nat) (action notes : String)
  | opToggleChecklist (actor : User) (project_id item_idx : Nat)
  | opAddChecklistItem (actor : User) (project_id : Nat) (phase_form : Option Nat)
      (text : String)
  | opReviewDocument (actor : User) (document_idx : Nat) (action notes : String)
  | opUploadDocument (actor : User) (project_id : Nat) (document_key : String)
      (file_ok : Bool)
  | opToggleUser (actor : User) (user_id : Nat)
  | opCreateProject (actor : User) (glab_id_form : Option Nat) (client_id : Nat)
      (assessment_type : String) (total_fees : F64) (now : DateT)
  | opAssignAssessor (actor : User) (project_id assessor_id : Nat)
  | opRemoveAssessor (actor : User) (project_id assessor_id : Nat)
  | opRunReminders (today : Int)
  | opViewProject (actor : User) (project_id : Nat)
  | opViewClient (actor : User) (client_id : Nat)
  | opDownloadDocument (actor : User) (document_idx : Nat)
deriving Repr

/-- The state transition of one operation. -/
def step (s : St) : Op → St
  | .opAdvance a pid => (advance_phase s a pid).1
  | .opReview a pid act n => (review_project s a pid act n).1
  | .opToggleChecklist a pid idx => (toggle_checklist s a pid idx).1
  | .opAddChecklistItem a pid ph t => (add_checklist_item s a pid ph t).1
  | .opReviewDocument a idx act n => (review_document s a idx act n).1
  | .opUploadDocument a pid k ok => (upload_document s a pid k ok).1
  | .opToggleUser a uid => (toggle_user s a uid).1
  | .opCreateProject a g c ty tot now => (create_project s a g c ty tot now).1
  | .opAssignAssessor a pid aid => (assign_assessor s a pid aid).1
  | .opRemoveAssessor a pid aid => (remove_assessor s a pid aid).1
  | .opRunReminders today => run_reminders today s
  | .opViewProject _ _ => s
  | .opViewClient _ _ => s
  | .opDownloadDocument _ _ => s

/-- Run a sequence of operations. -/
def run (s : St) (ops : List Op) : St := ops.foldl step s

/-! ## Value of a represented double as a rational -/

/-- The exact rational value of a represented double. -/
def F64.toRat (x : F64) : ℚ := (x.m : ℚ) * (2 : ℚ) ^ x.e

/-! ## Concrete sample data

Small database states used to instantiate the theorems below on concrete
inputs. -/

/-- A GEA administrator. -/
def adminU : User :=
  { id := 1, username := "admin", role := "gea_admin", glab_id := none,
    client_id := none, is_active := true, recertification_due := none }

/-- The admin of GLAB 1. -/
def glabAdminU : User :=
  { id := 2, username := "galba", role := "glab_admin", glab_id := some 1,
    client_id := none, is_active := true, recertification_due := none }

/-- A GLAB-side user of a different GLAB (GLAB 2). -/
def outsiderU : User :=
  { id := 3, username := "otto", role := "glab_admin", glab_id := some 2,
    client_id := none, is_active := true, recertification_due := none }

/-- A licensed assessment body. -/
def glab1 : GLAB :=
  { id := 1, name := "Alpha Assessments", license_number := "GL-001",
    status := "active", next_payment_due := none }

/-- A client organization of GLAB 1. -/
def client1 : Client := { id := 1, name := "Acme", glab_id := some 1 }

/-- A project of GLAB 1 at phase 1 with a pending GEA review. -/
def project1 : Project :=
  { id := 1, reference_number := "GL-001-2026-0001", glab_id := 1,
    client_id := 1, assessment_type := "initial", current_phase := 1,
    gea_status := "pending", gea_notes := "", gea_reviewed_by := none,
    total_assessment_fees := f0, gea_fee := f0, glab_revenue := f0,
    initial_payment_received := false, final_payment_received := false,
    gea_fee_remitted := false, created_at := ⟨2026, 5⟩, created_by := some 1,
    assessors := [] }

/-- A required, not-yet-completed checklist item of project 1 at phase 1. -/
def item1 : ChecklistItem :=
  { project_id := 1, phase_number := 1,
    item_text := "Enrollment form received and complete", is_required := true,
    is_custom := false, is_completed := false, completed_by := none, order := 0 }

/-- A document of project 1 (owned by GLAB 1). -/
def doc1 : Document :=
  { project_id := 1, phase_number := 1, document_key := "enrollment_form",
    status := "pending", review_notes := "", reviewed_by := none,
    uploaded_by := 2 }

/-- The base sample state. -/
def stBase : St :=
  { users := [adminU, glabAdminU, outsiderU], glabs := [glab1],
    clients := [client1], projects := [project1], documents := [doc1],
    checklists := [item1], phase_logs := [], reminders := [] }

/-- The sample state with project 1 at the final phase. -/
def stFinal : St :=
  { stBase with projects := [{ project1 with current_phase := 8 }] }

/-- The sample state with a GLAB whose license payment falls due on day 100
(so day 40 is exactly 60 days before it). -/
def stRem : St :=
  { stBase with glabs := [{ glab1 with next_payment_due := some 100 }] }

/-- The double entered as the form value `0.83`. -/
def T83 : F64 := ofRat 83 100

/-- Whether some required checklist item of the project's given phase is
incomplete (the spec's precondition for refusing advancement). -/
def has_incomplete_required (s : St) (pid ph : Nat) : Bool :=
  s.checklists.any fun it =>
    it.project_id == pid && it.phase_number == ph && it.is_required &&
      !it.is_completed

/-- Spec-side counter (following the spec's words for C8): the number of the
GLAB's projects created on or after January 1 of the given year, i.e. whose
creation year is at least that year. -/
def glab_projects_since_jan1 (projects : List Project) (gid year : Nat) : Nat :=
  (projects.filter fun p => p.glab_id == gid && Nat.ble year p.created_at.year).length

/-! ## General lemmas about keyed row updates -/

/-- Looking up a key in a table after an update-by-key touching `k` returns
the old row with the update applied when its key matched; the update must
preserve keys. -/
theorem find?_map_ite {α : Type} (idf : α → Nat) (f : α → α)
    (hf : ∀ x, idf (f x) = idf x) (k k' : Nat) :
    ∀ l : List α,
      (l.map fun x => if idf x == k then f x else x).find? (fun x => idf x == k') =
        ((l.find? fun x => idf x == k').map fun x => if idf x == k then f x else x)
  | [] => rfl
  | x :: xs => by
      have hid : idf (if idf x == k then f x else x) = idf x := by
        by_cases h : (idf x == k) = true <;> simp [h, hf]
      by_cases h' : (idf x == k') = true
      · rw [List.map_cons, List.find?_cons_of_pos, List.find?_cons_of_pos,
          Option.map_some']
        · exact h'
        · show (idf (if idf x == k then f x else x) == k') = true
          rw [hid]; exact h'
      · rw [List.map_cons, List.find?_cons_of_neg, List.find?_cons_of_neg,
          find?_map_ite idf f hf k k' xs]
        · simpa using h'
        · show ¬ (idf (if idf x == k then f x else x) == k') = true
          rw [hid]; simpa using h'

/-- `findProject` after `updateProject`. -/
theorem findProject_updateProject (s : St) (k k' : Nat) (f : Project → Project)
    (hf : ∀ p, (f p).id = p.id) :
    findProject (updateProject s k f) k' =
      (findProject s k').map fun p => if p.id == k then f p else p :=
  find?_map_ite Project.id f hf k k' s.projects

/-- A found project's id matches the searched key. -/
theorem findProject_key (s : St) (pid : Nat) (p : Project)
    (h : findProject s pid = some p) : (p.id == pid) = true := by
  unfold findProject at h
  exact @List.find?_some Project (fun q => q.id == pid) p s.projects h

/-- Behaviour of `advance_phase` for an authorized caller: a pure warning
no-op at the final phase, and otherwise a single-step increment together
with exactly one appended log row, the checklist table untouched. -/
theorem advance_phase_spec (s : St) (a : User) (pid : Nat) (p : Project)
    (h : findProject s pid = some p)
    (ha : is_gea a = true ∨ a.glab_id = some p.glab_id) :
    (8 ≤ p.current_phase →
      advance_phase s a pid = (s, Resp.warn "Project is already in the final phase.")) ∧
    (p.current_phase < 8 →
      findProject (advance_phase s a pid).1 pid =
          some { p with current_phase := p.current_phase + 1 } ∧
        (advance_phase s a pid).1.phase_logs = s.phase_logs ++
          [{ project_id := pid, from_phase := some p.current_phase,
             to_phase := p.current_phase + 1, action := "advanced",
             performed_by := some a.id }] ∧
        (advance_phase s a pid).1.checklists = s.checklists) := by
  have hguard : (!is_gea a && a.glab_id != some p.glab_id) = false := by
    rcases ha with ha | ha
    · simp [ha]
    · simp [ha]
  constructor
  · intro hfin
    simp [advance_phase, h, hguard, hfin]
  · intro hlt
    have hnot : ¬ 8 ≤ p.current_phase := Nat.not_le.mpr hlt
    have hkey := findProject_key s pid p h
    refine ⟨?_, ?_, ?_⟩
    · have hfind : findProject (advance_phase s a pid).1 pid =
          findProject (updateProject s pid advance_update) pid := by
        simp only [advance_phase]
        rw [h]
        simp [hguard, hnot, findProject, updateProject]
      rw [hfind,
        findProject_updateProject s pid pid advance_update (fun q => rfl),
        h, Option.map_some']
      simp [hkey, advance_update]
    · simp [advance_phase, h, hguard, hnot, updateProject]
    · simp [advance_phase, h, hguard, hnot, updateProject]

/-- A found user's id matches the searched key. -/
theorem findUser_key (s : St) (uid : Nat) (u : User)
    (h : findUser s uid = some u) : (u.id == uid) = true := by
  unfold findUser at h
  exact @List.find?_some User (fun v => v.id == uid) u s.users h

/-- A found client's id matches the searched key. -/
theorem findClient_key (s : St) (cid : Nat) (c : Client)
    (h : findClient s cid = some c) : (c.id == cid) = true := by
  unfold findClient at h
  exact @List.find?_some Client (fun v => v.id == cid) c s.clients h

/-! ## Claim C1 -/

/-- Claim C1 as stated is false: in `stBase`, project 1 has an incomplete
required checklist item at its current phase 1, yet `advance_phase` (called
by an authorized GEA admin) moves the project to phase 2.  The handler never
queries the checklist table. -/
theorem c1_checklist_gate_cex :
    has_incomplete_required stBase 1 1 = true ∧
    (findProject stBase 1).map Project.current_phase = some 1 ∧
    (findProject (advance_phase stBase adminU 1).1 1).map Project.current_phase =
      some 2 :=
  ⟨by decide, by decide, by decide⟩

/-- Claim C1 (amended): `advance_phase` enforces no checklist precondition;
for every authorized caller and project below the final phase it increments
`current_phase` by one regardless of the completion state of the required
checklist items at the current phase (no checklist hypothesis appears). -/
theorem c1_advance_ignores_checklists (s : St) (a : User) (pid : Nat)
    (p : Project) (h : findProject s pid = some p)
    (ha : is_gea a = true ∨ a.glab_id = some p.glab_id)
    (hlt : p.current_phase < 8) :
    (findProject (advance_phase s a pid).1 pid).map Project.current_phase =
      some (p.current_phase + 1) := by
  rw [((advance_phase_spec s a pid p h ha).2 hlt).1, Option.map_some']

/-- Witness for `c1_advance_ignores_checklists`: the concrete project of
`stBase` still has an incomplete required phase-1 item when it is advanced. -/
theorem c1_advance_ignores_checklists_witness :
    has_incomplete_required stBase 1 1 = true ∧
    (findProject (advance_phase stBase adminU 1).1 1).map Project.current_phase =
      some 2 :=
  ⟨by decide,
   c1_advance_ignores_checklists stBase adminU 1 project1 (by decide)
     (Or.inl (by decide)) (by decide)⟩

/-! ## Claim C2 -/

/-- Claim C2 as stated is false: phase 1 carries a GEA review gate
(`gea_review_checklist` non-empty), project 1 of `stBase` has
`gea_status = 'pending'`, yet `advance_phase` still increments the phase.
The handler never reads `gea_status`. -/
theorem c2_gea_gate_cex :
    phase_has_gea_gate 1 = true ∧
    (findProject stBase 1).map Project.gea_status = some "pending" ∧
    (findProject (advance_phase stBase adminU 1).1 1).map Project.current_phase =
      some 2 :=
  ⟨by decide, by decide, by decide⟩

/-- Claim C2 (amended): `advance_phase` never consults the GEA review gate;
for every authorized caller and project below the final phase it increments
`current_phase` even when `gea_status` differs from `'approved'`. -/
theorem c2_advance_ignores_gea_status (s : St) (a : User) (pid : Nat)
    (p : Project) (h : findProject s pid = some p)
    (ha : is_gea a = true ∨ a.glab_id = some p.glab_id)
    (hlt : p.current_phase < 8) (_hst : p.gea_status ≠ "approved") :
    (findProject (advance_phase s a pid).1 pid).map Project.current_phase =
      some (p.current_phase + 1) := by
  rw [((advance_phase_spec s a pid p h ha).2 hlt).1, Option.map_some']

/-- Witness for `c2_advance_ignores_gea_status` at the concrete pending
project of `stBase`. -/
theorem c2_advance_ignores_gea_status_witness :
    (findProject stBase 1).map Project.gea_status = some "pending" ∧
    (findProject (advance_phase stBase adminU 1).1 1).map Project.current_phase =
      some 2 :=
  ⟨by decide,
   c2_advance_ignores_gea_status stBase adminU 1 project1 (by decide)
     (Or.inl (by decide)) (by decide) (by decide)⟩

/-! ## Claim C4 -/

/-- Claim C4: for an authorized caller, `advance_phase` on a project at the
final phase (`current_phase >= 8`) returns the state unchanged (so no log
row and no field change) with a warning flash; below the final phase it
increments `current_phase` by exactly one, changes no other project field,
and appends exactly one `PhaseLog` row recording the transition as
`'advanced'`. -/
theorem c4_advance_final_noop_else_single_step (s : St) (a : User) (pid : Nat)
    (p : Project) (h : findProject s pid = some p)
    (ha : is_gea a = true ∨ a.glab_id = some p.glab_id) :
    (8 ≤ p.current_phase →
      (advance_phase s a pid).1 = s ∧
      (advance_phase s a pid).2 =
        Resp.warn "Project is already in the final phase.") ∧
    (p.current_phase < 8 →
      findProject (advance_phase s a pid).1 pid =
          some { p with current_phase := p.current_phase + 1 } ∧
        (advance_phase s a pid).1.phase_logs = s.phase_logs ++
          [{ project_id := pid, from_phase := some p.current_phase,
             to_phase := p.current_phase + 1, action := "advanced",
             performed_by := some a.id }]) := by
  obtain ⟨h1, h2⟩ := advance_phase_spec s a pid p h ha
  refine ⟨fun hf => ?_, fun hl => ⟨(h2 hl).1, (h2 hl).2.1⟩⟩
  have hp := h1 hf
  exact ⟨congrArg Prod.fst hp, congrArg Prod.snd hp⟩

/-- Witness for `c4_advance_final_noop_else_single_step`: advancing the
phase-8 project of `stFinal` is a no-op with a warning, and advancing the
phase-1 project of `stBase` appends the single expected log row. -/
theorem c4_advance_final_noop_else_single_step_witness :
    ((advance_phase stFinal adminU 1).1 = stFinal ∧
      (advance_phase stFinal adminU 1).2 =
        Resp.warn "Project is already in the final phase.") ∧
    (advance_phase stBase adminU 1).1.phase_logs =
      [{ project_id := 1, from_phase := some 1, to_phase := 2,
         action := "advanced", performed_by := some 1 }] :=
  ⟨(c4_advance_final_noop_else_single_step stFinal adminU 1
      { project1 with current_phase := 8 } (by decide) (Or.inl (by decide))).1
      (by decide),
   ((c4_advance_final_noop_else_single_step stBase adminU 1 project1 (by decide)
      (Or.inl (by decide))).2 (by decide)).2⟩

/-! ## Claim C6 -/

/-- Claim C6 as stated is false: the logged-in user `outsiderU` belongs to
GLAB 2, document 0 of `stBase` belongs to a project of GLAB 1, and
`download_document` still serves the file — the handler performs no
ownership check beyond `@login_required`. -/
theorem c6_outsider_download_cex :
    is_gea outsiderU = false ∧
    outsiderU.glab_id = some 2 ∧
    (stBase.documents.get? 0).map Document.project_id = some 1 ∧
    (findProject stBase 1).map Project.glab_id = some 1 ∧
    download_document_access stBase outsiderU 0 = Access.granted :=
  ⟨by decide, by decide, by decide, by decide, by decide⟩

/-- Claim C6 (amended): `view_client` and `view_project` refuse a non-GEA
user whose `glab_id` differs from the owning GLAB (for `view_project`, a
non-assessor; assessors are gated on project assignment instead), and both
views are read-only; but `download_document` performs no ownership check at
all — every logged-in user may download every existing document. -/
theorem c6_views_denied_download_unchecked :
    (∀ (s : St) (u : User) (cid : Nat) (c : Client),
      findClient s cid = some c → is_gea u = false → c.glab_id ≠ u.glab_id →
      view_client_access s u cid = Access.denied) ∧
    (∀ (s : St) (u : User) (pid : Nat) (p : Project),
      findProject s pid = some p → is_gea u = false →
      u.role ≠ "glab_assessor" → some p.glab_id ≠ u.glab_id →
      view_project_access s u pid = Access.denied) ∧
    (∀ (s : St) (u : User) (idx : Nat) (d : Document),
      s.documents.get? idx = some d →
      download_document_access s u idx = Access.granted) := by
  refine ⟨?_, ?_, ?_⟩
  · intro s u cid c hc hg hne
    simp [view_client_access, hc, hg, hne]
  · intro s u pid p hp hg hrole hne
    simp [view_project_access, hp, hg, hrole, hne]
  · intro s u idx d hd
    rw [List.get?_eq_getElem?] at hd
    simp [download_document_access, hd]

/-- Witness for `c6_views_denied_download_unchecked` at the outsider of
`stBase`. -/
theorem c6_views_denied_download_unchecked_witness :
    is_gea outsiderU = false ∧
    view_client_access stBase outsiderU 1 = Access.denied ∧
    view_project_access stBase outsiderU 1 = Access.denied ∧
    download_document_access stBase outsiderU 0 = Access.granted :=
  ⟨by decide,
   c6_views_denied_download_unchecked.1 stBase outsiderU 1 client1 (by decide)
     (by decide) (by decide),
   c6_views_denied_download_unchecked.2.1 stBase outsiderU 1 project1 (by decide)
     (by decide) (by decide) (by decide),
   c6_views_denied_download_unchecked.2.2 stBase outsiderU 0 doc1 (by decide)⟩

/-! ## Claim C5 -/

/-- Claim C5 as stated is false: the fee columns are doubles, and for the
total entered as `0.83` (parsed to the double `T83`) the project created by
`create_project` has `gea_fee + glab_revenue == total_assessment_fees`
evaluate to `False` in Python float semantics — the two roundings lose one
unit in the last place. -/
theorem c5_float_split_cex :
    ((create_project stBase adminU (some 1) 1 "initial" T83
        ⟨2026, 7⟩).1.projects.getLast?).map
        (fun p => (p.total_assessment_fees,
          feq (fadd p.gea_fee p.glab_revenue) p.total_assessment_fees)) =
      some (T83, false) := by
  decide

/-- Claim C5 (amended): `create_project` stores the entered total `T`
unchanged, `gea_fee` as the binary64 product `T * 0.15` and `glab_revenue`
as the binary64 product `T * 0.85`, computed once at creation; the 15%/85%
split sums exactly to the total in exact arithmetic (so any failure of
`gea_fee + glab_revenue == total_assessment_fees` is pure rounding). -/
theorem c5_fee_split (s : St) (a : User) (g : Option Nat) (cid : Nat)
    (ty : String) (T : F64) (now : DateT) (glab : GLAB)
    (hrole : (a.role == "glab_assessor") = false)
    (hglab : ((if is_gea a then g else a.glab_id).bind (findGlab s)) = some glab) :
    ((create_project s a g cid ty T now).1.projects.getLast?).map
        (fun p => (p.total_assessment_fees, p.gea_fee, p.glab_revenue)) =
      some (T, fmul T c15f, fmul T c85f) ∧
    F64.toRat T * (3 / 20) + F64.toRat T * (17 / 20) = F64.toRat T := by
  constructor
  · simp only [create_project, hrole, Bool.false_eq_true, if_false]
    rw [hglab]
    simp [List.getLast?_concat]
  · ring

/-- Witness for `c5_fee_split` at the concrete creation refuted above. -/
theorem c5_fee_split_witness :
    ((create_project stBase adminU (some 1) 1 "initial" T83
        ⟨2026, 7⟩).1.projects.getLast?).map
        (fun p => (p.total_assessment_fees, p.gea_fee, p.glab_revenue)) =
      some (T83, fmul T83 c15f, fmul T83 c85f) ∧
    F64.toRat T83 * (3 / 20) + F64.toRat T83 * (17 / 20) = F64.toRat T83 :=
  c5_fee_split stBase adminU (some 1) 1 "initial" T83 ⟨2026, 7⟩ glab1
    (by decide) (by decide)

/-! ## Claim C10 -/

/-- Claim C10: `toggle_user` by a GEA admin on their own account is a
rejected no-op — the state is unchanged and the error flash is emitted —
while on any other existing user it flips `is_active`. -/
theorem c10_toggle_user_self_guard :
    (∀ (s : St) (caller : User), is_gea_admin caller = true →
      (toggle_user s caller caller.id).1 = s) ∧
    (∀ (s : St) (caller u : User), is_gea_admin caller = true →
      findUser s caller.id = some u →
      (toggle_user s caller caller.id).2 =
        Resp.err "Cannot deactivate your own account.") ∧
    (∀ (s : St) (caller : User) (uid : Nat) (u : User),
      is_gea_admin caller = true → findUser s uid = some u → uid ≠ caller.id →
      findUser (toggle_user s caller uid).1 uid =
        some { u with is_active := !u.is_active }) := by
  refine ⟨?_, ?_, ?_⟩
  · intro s caller hadm
    cases hfind : findUser s caller.id with
    | none => simp [toggle_user, hadm, hfind]
    | some u =>
        have hkey := findUser_key s caller.id u hfind
        simp [toggle_user, hadm, hfind, hkey]
  · intro s caller u hadm hfind
    have hkey := findUser_key s caller.id u hfind
    simp [toggle_user, hadm, hfind, hkey]
  · intro s caller uid u hadm hfind hne
    have hkey := findUser_key s uid u hfind
    have hid : u.id = uid := by simpa using hkey
    have hkey' : (u.id == caller.id) = false := by
      rw [hid]
      exact beq_eq_false_iff_ne.mpr hne
    have hstate : (toggle_user s caller uid).1 =
        { s with users := s.users.map fun v =>
            if v.id == uid then { v with is_active := !v.is_active } else v } := by
      simp [toggle_user, hadm, hfind, hkey']
    rw [hstate]
    have := find?_map_ite User.id
      (fun v => { v with is_active := !v.is_active }) (fun _ => rfl) uid uid
      s.users
    unfold findUser
    rw [show ({ s with users := s.users.map fun v =>
        if v.id == uid then { v with is_active := !v.is_active } else v } : St).users =
        s.users.map (fun v =>
          if v.id == uid then { v with is_active := !v.is_active } else v) from rfl]
    rw [this]
    unfold findUser at hfind
    rw [hfind, Option.map_some']
    simp [hkey]

/-- Witness for `c10_toggle_user_self_guard`: the admin of `stBase` cannot
deactivate their own account but can deactivate user 2. -/
theorem c10_toggle_user_self_guard_witness :
    (toggle_user stBase adminU 1).1 = stBase ∧
    (toggle_user stBase adminU 1).2 =
      Resp.err "Cannot deactivate your own account." ∧
    findUser (toggle_user stBase adminU 2).1 2 =
      some { glabAdminU with is_active := false } :=
  ⟨c10_toggle_user_self_guard.1 stBase adminU (by decide),
   c10_toggle_user_self_guard.2.1 stBase adminU adminU (by decide) (by decide),
   c10_toggle_user_self_guard.2.2 stBase adminU 2 glabAdminU (by decide)
     (by decide) (by decide)⟩

/-! ## Claim C8 -/

/-- Claim C8: `generate_reference_number` returns the GLAB's license number,
the current year, and — zero-padded to four digits by `pad4` (the embedding
of Python's `:04d`) — one plus the count of that GLAB's projects created on
or after January 1 of the current year (`glab_projects_since_jan1` follows
the spec's wording; the code compares full creation instants against
midnight January 1). -/
theorem c8_reference_number (projects : List Project) (glab : GLAB)
    (now : DateT) :
    generate_reference_number projects glab now =
      glab.license_number ++ "-" ++ toString now.year ++ "-" ++
        pad4 (1 + glab_projects_since_jan1 projects glab.id now.year) := by
  unfold generate_reference_number glab_projects_since_jan1
  have hfilter : ∀ p ∈ projects,
      (p.glab_id == glab.id && dtLe (jan1 now.year) p.created_at) =
      (p.glab_id == glab.id && Nat.ble now.year p.created_at.year) := by
    intro p _
    have hdt : dtLe (jan1 now.year) p.created_at =
        Nat.ble now.year p.created_at.year := by
      unfold dtLe jan1
      rw [Bool.eq_iff_iff]
      simp only [Bool.or_eq_true, Bool.and_eq_true, Nat.blt_eq, Nat.ble_eq,
        beq_iff_eq]
      omega
    rw [hdt]
  rw [List.filter_congr hfilter, Nat.add_comm]

/-! ## Claim C9 -/

/-- Filtering one phase's seeded block by phase number keeps exactly the
matching block. -/
theorem filter_enumMap (pid k ph : Nat) : ∀ l : List (Nat × String),
    (l.map (seed_row pid k)).filter (fun it => it.phase_number == ph) =
      if k = ph then l.map (seed_row pid k) else []
  | [] => by by_cases h : k = ph <;> simp [h]
  | x :: xs => by
      by_cases h : k = ph
      · subst h
        simp [List.filter_cons, seed_row, filter_enumMap pid k k xs]
      · have hb : (k == ph) = false := beq_eq_false_iff_ne.mpr h
        simp [List.filter_cons, seed_row, hb, h, filter_enumMap pid k ph xs]

/-- Filtering the seeded checklist rows of phase `k` by phase `ph`. -/
theorem filter_seed_phase (pid k ph : Nat) :
    (seed_phase_items pid k).filter (fun it => it.phase_number == ph) =
      if k = ph then seed_phase_items pid k else [] := by
  unfold seed_phase_items
  exact filter_enumMap pid k ph _

/-- Every seeded checklist row carries the template flags. -/
theorem mem_seed_flags (pid k : Nat) (it : ChecklistItem)
    (h : it ∈ seed_phase_items pid k) :
    it.is_required = true ∧ it.is_custom = false ∧ it.is_completed = false := by
  unfold seed_phase_items at h
  rw [List.mem_map] at h
  obtain ⟨e, _, rfl⟩ := h
  exact ⟨rfl, rfl, rfl⟩

/-- Claim C9: project creation seeds checklist items for all eight phases at
once from the static template — for each phase exactly one row per
`default_checklist` entry in template order with `is_required`, not custom,
not completed — and `advance_phase` seeds nothing. -/
theorem c9_checklists_seeded_at_creation :
    (∀ pid ph, 1 ≤ ph → ph ≤ 8 →
      (create_default_checklists pid).filter (fun it => it.phase_number == ph) =
        seed_phase_items pid ph) ∧
    (∀ pid ph,
      (seed_phase_items pid ph).map ChecklistItem.item_text =
          default_checklist ph ∧
        (seed_phase_items pid ph).map ChecklistItem.order =
          List.range (default_checklist ph).length) ∧
    (∀ pid it, it ∈ create_default_checklists pid →
      it.is_required = true ∧ it.is_custom = false ∧ it.is_completed = false) ∧
    (∀ (s : St) (a : User) (g : Option Nat) (cid : Nat) (ty : String) (T : F64)
        (now : DateT),
      (create_project s a g cid ty T now).1.checklists =
          s.checklists ++ create_default_checklists (nextProjectId s) ∨
        (create_project s a g cid ty T now).1 = s) ∧
    (∀ (s : St) (a : User) (pid : Nat),
      (advance_phase s a pid).1.checklists = s.checklists) := by
  refine ⟨?_, ?_, ?_, ?_, ?_⟩
  · intro pid ph h1 h8
    unfold create_default_checklists
    simp only [List.filter_append, filter_seed_phase]
    interval_cases ph <;> simp
  · intro pid ph
    constructor
    · unfold seed_phase_items
      rw [List.map_map]
      exact List.enum_map_snd _
    · unfold seed_phase_items
      rw [List.map_map]
      exact List.enum_map_fst _
  · intro pid it h
    simp only [create_default_checklists, List.mem_append] at h
    rcases h with ((((((h | h) | h) | h) | h) | h) | h) | h <;>
      exact mem_seed_flags pid _ it h
  · intro s a g cid ty T now
    by_cases hrole : (a.role == "glab_assessor") = true
    · right
      simp [create_project, hrole]
    · rw [Bool.not_eq_true] at hrole
      cases hglab : (if is_gea a then g else a.glab_id).bind (findGlab s) with
      | none =>
          right
          simp only [create_project, hrole, Bool.false_eq_true, if_false]
          rw [hglab]
      | some glab =>
          left
          simp only [create_project, hrole, Bool.false_eq_true, if_false]
          rw [hglab]
  · intro s a pid
    unfold advance_phase
    split
    · rfl
    · split
      · rfl
      · split
        · rfl
        · simp [updateProject]

/-- Witness for `c9_checklists_seeded_at_creation`: phase 3 of a freshly
seeded project, and the unchanged checklist table of an advancement. -/
theorem c9_checklists_seeded_at_creation_witness :
    (create_default_checklists 7).filter (fun it => it.phase_number == 3) =
      seed_phase_items 7 3 ∧
    (advance_phase stBase adminU 1).1.checklists = stBase.checklists :=
  ⟨c9_checklists_seeded_at_creation.1 7 3 (by decide) (by decide),
   c9_checklists_seeded_at_creation.2.2.2.2 stBase adminU 1⟩

/-! ## Claim C7 -/

/-- The lookup predicate of the reminder scan holds exactly on rows with the
given unique-constraint key. -/
theorem remMatch_iff_key (rt tt : String) (tid days : Nat)
    (r : ScheduledReminder) :
    remMatch rt tt tid days r = true ↔ remKey r = (rt, tt, tid, days) := by
  simp [remMatch, remKey, Bool.and_eq_true, and_assoc]

/-- Marking a row sent changes no key. -/
theorem markSent_map_key (rt tt : String) (tid days : Nat) :
    ∀ rems : List ScheduledReminder,
      (markSent rt tt tid days rems).map remKey = rems.map remKey
  | [] => rfl
  | r :: rs => by
      unfold markSent
      by_cases h : remMatch rt tt tid days r = true
      · simp [h, remKey]
      · simp [h, markSent_map_key rt tt tid days rs]

/-- One inner-loop iteration of the scan preserves key uniqueness: it only
inserts after the lookup for that key came back empty. -/
theorem processReminder_nodup (today : Int) (rt tt : String) (tid : Nat)
    (due : Int) (rems : List ScheduledReminder) (days : Nat)
    (h : (rems.map remKey).Nodup) :
    ((processReminder today rt tt tid due rems days).map remKey).Nodup := by
  unfold processReminder
  by_cases ht : (today == due - (days : Int)) = true
  · rw [if_pos ht]
    cases hfind : rems.find? (remMatch rt tt tid days) with
    | none =>
        dsimp only
        have hnotmem : (rt, tt, tid, days) ∉ rems.map remKey := by
          intro hmem
          rw [List.mem_map] at hmem
          obtain ⟨r, hr, hkey⟩ := hmem
          have hno := List.find?_eq_none.mp hfind r hr
          exact hno ((remMatch_iff_key rt tt tid days r).mpr hkey)
        rw [List.map_append, List.nodup_append]
        refine ⟨h, List.nodup_singleton _, ?_⟩
        intro a ha hb
        have hb' : a = (rt, tt, tid, days) := by
          simpa [remKey] using hb
        exact hnotmem (hb' ▸ ha)
    | some r =>
        dsimp only
        by_cases hs : (!r.sent) = true
        · rw [if_pos hs, markSent_map_key]
          exact h
        · rw [if_neg hs]
          exact h
  · rw [if_neg ht]
    exact h

/-- The inner `for days in reminder_days` fold preserves key uniqueness. -/
theorem foldl_processReminder_nodup (today : Int) (rt tt : String) (tid : Nat)
    (due : Int) :
    ∀ (ds : List Nat) (rems : List ScheduledReminder),
      (rems.map remKey).Nodup →
      ((ds.foldl (processReminder today rt tt tid due) rems).map remKey).Nodup
  | [], _, h => h
  | d :: ds, rems, h =>
      foldl_processReminder_nodup today rt tt tid due ds _
        (processReminder_nodup today rt tt tid due rems d h)

/-- The per-GLAB step preserves key uniqueness. -/
theorem glabReminderStep_nodup (today : Int) (g : GLAB)
    (rems : List ScheduledReminder) (h : (rems.map remKey).Nodup) :
    ((glabReminderStep today rems g).map remKey).Nodup := by
  unfold glabReminderStep
  cases g.next_payment_due with
  | none => exact h
  | some due =>
      dsimp only
      by_cases hs : (g.status == "active") = true
      · rw [if_pos hs]
        exact foldl_processReminder_nodup today "license_payment" "glab" g.id due
          reminder_days rems h
      · rw [if_neg hs]
        exact h

/-- The per-assessor step preserves key uniqueness. -/
theorem assessorReminderStep_nodup (today : Int) (u : User)
    (rems : List ScheduledReminder) (h : (rems.map remKey).Nodup) :
    ((assessorReminderStep today rems u).map remKey).Nodup := by
  unfold assessorReminderStep
  cases u.recertification_due with
  | none => exact h
  | some due =>
      dsimp only
      by_cases hs : (u.role == "glab_assessor" && u.is_active) = true
      · rw [if_pos hs]
        exact foldl_processReminder_nodup today "recertification" "assessor" u.id
          due reminder_days rems h
      · rw [if_neg hs]
        exact h

/-- Folding either half of the scan over its table preserves key
uniqueness. -/
theorem foldl_glabReminders_nodup (today : Int) :
    ∀ (gs : List GLAB) (rems : List ScheduledReminder),
      (rems.map remKey).Nodup →
      ((gs.foldl (glabReminderStep today) rems).map remKey).Nodup
  | [], _, h => h
  | g :: gs, rems, h =>
      foldl_glabReminders_nodup today gs _ (glabReminderStep_nodup today g rems h)

/-- Folding the assessor half of the scan preserves key uniqueness. -/
theorem foldl_assessorReminders_nodup (today : Int) :
    ∀ (us : List User) (rems : List ScheduledReminder),
      (rems.map remKey).Nodup →
      ((us.foldl (assessorReminderStep today) rems).map remKey).Nodup
  | [], _, h => h
  | u :: us, rems, h =>
      foldl_assessorReminders_nodup today us _
        (assessorReminderStep_nodup today u rems h)

/-- One full reminder scan preserves key uniqueness. -/
theorem check_and_send_reminders_nodup (today : Int) (glabs : List GLAB)
    (users : List User) (rems : List ScheduledReminder)
    (h : (rems.map remKey).Nodup) :
    ((check_and_send_reminders today glabs users rems).map remKey).Nodup := by
  unfold check_and_send_reminders
  exact foldl_assessorReminders_nodup today users _
    (foldl_glabReminders_nodup today glabs rems h)

/-- Every operation either leaves the reminder table unchanged or runs the
scan on it. -/
theorem step_reminders_eq (s : St) (o : Op) :
    (step s o).reminders = s.reminders ∨
      ∃ today, (step s o).reminders =
        check_and_send_reminders today s.glabs s.users s.reminders := by
  cases o with
  | opRunReminders today => exact Or.inr ⟨today, rfl⟩
  | opAdvance a pid =>
      left
      simp only [step, advance_phase]
      repeat' split
      all_goals simp [updateProject]
  | opReview a pid act n =>
      left
      simp only [step, review_project]
      repeat' split
      all_goals simp [updateProject]
  | opToggleChecklist a pid idx =>
      left
      simp only [step, toggle_checklist]
      repeat' split
      all_goals simp
  | opAddChecklistItem a pid ph t =>
      left
      simp only [step, add_checklist_item]
      repeat' split
      all_goals simp
  | opReviewDocument a idx act n =>
      left
      simp only [step, review_document]
      repeat' split
      all_goals simp
  | opUploadDocument a pid k ok =>
      left
      simp only [step, upload_document]
      repeat' split
      all_goals simp
  | opToggleUser a uid =>
      left
      simp only [step, toggle_user]
      repeat' split
      all_goals simp
  | opCreateProject a g c ty tot now =>
      left
      simp only [step, create_project]
      repeat' split
      all_goals simp
  | opAssignAssessor a pid aid =>
      left
      simp only [step, assign_assessor]
      repeat' split
      all_goals simp [updateProject]
  | opRemoveAssessor a pid aid =>
      left
      simp only [step, remove_assessor]
      repeat' split
      all_goals simp [updateProject]
  | opViewProject a pid => exact Or.inl rfl
  | opViewClient a cid => exact Or.inl rfl
  | opDownloadDocument a idx => exact Or.inl rfl

/-- One operation preserves key uniqueness of the reminder table. -/
theorem step_rem_nodup (s : St) (o : Op)
    (h : (s.reminders.map remKey).Nodup) :
    (((step s o).reminders).map remKey).Nodup := by
  rcases step_reminders_eq s o with heq | ⟨today, heq⟩
  · rw [heq]; exact h
  · rw [heq]
    exact check_and_send_reminders_nodup today s.glabs s.users s.reminders h

/-- Claim C7: across any sequence of portal operations — in particular any
number of sequential reminder scans — the `ScheduledReminder` table never
acquires two rows with the same (`reminder_type`, `target_type`,
`target_id`, `days_before`) tuple, provided it starts without duplicates
(the table is born empty and only the scan writes it). -/
theorem c7_reminder_keys_unique :
    ∀ (ops : List Op) (s : St), (s.reminders.map remKey).Nodup →
      (((run s ops).reminders).map remKey).Nodup
  | [], _, h => h
  | o :: ops, s, h =>
      c7_reminder_keys_unique ops (step s o) (step_rem_nodup s o h)

/-- Witness for `c7_reminder_keys_unique`: two consecutive scans on a state
whose GLAB has a payment due 60 days after today insert one row, not two. -/
theorem c7_reminder_keys_unique_witness :
    (((run stRem [Op.opRunReminders 40, Op.opRunReminders 40]).reminders).map
      remKey).Nodup ∧
    (run stRem [Op.opRunReminders 40, Op.opRunReminders 40]).reminders.length = 1 :=
  ⟨c7_reminder_keys_unique [Op.opRunReminders 40, Op.opRunReminders 40] stRem
    (by decide), by decide⟩

/-! ## Claim C3 -/

/-- One operation never lowers an existing project's `current_phase`: the
looked-up row survives every handler either untouched, or with non-phase
fields mutated, or with the phase incremented by `advance_phase`. -/
theorem step_phase_mono (s : St) (o : Op) (pid : Nat) (p : Project)
    (h : findProject s pid = some p) :
    ∃ q, findProject (step s o) pid = some q ∧
      p.current_phase ≤ q.current_phase := by
  cases o with
  | opAdvance a pid' =>
      simp only [step]
      unfold advance_phase
      cases hf : findProject s pid' with
      | none => exact ⟨p, h, Nat.le_refl _⟩
      | some p0 =>
          dsimp only
          by_cases h1 : (!is_gea a && a.glab_id != some p0.glab_id) = true
          · rw [if_pos h1]; exact ⟨p, h, Nat.le_refl _⟩
          · rw [if_neg h1]
            by_cases h2 : 8 ≤ p0.current_phase
            · rw [if_pos h2]; exact ⟨p, h, Nat.le_refl _⟩
            · rw [if_neg h2]
              refine ⟨(if p.id == pid' then advance_update p else p), ?_, ?_⟩
              · show findProject (updateProject s pid' advance_update) pid = _
                rw [findProject_updateProject s pid' pid advance_update
                  (fun q => rfl), h, Option.map_some']
              · by_cases hid : (p.id == pid') = true <;>
                  simp [hid, advance_update]
  | opReview a pid' act n =>
      simp only [step]
      unfold review_project
      by_cases hg : (!is_gea a) = true
      · rw [if_pos hg]; exact ⟨p, h, Nat.le_refl _⟩
      · rw [if_neg hg]
        cases hf : findProject s pid' with
        | none => exact ⟨p, h, Nat.le_refl _⟩
        | some p0 =>
            dsimp only
            by_cases hact : (act == "approved" || act == "changes_requested" ||
                act == "denied") = true
            · rw [if_pos hact]
              refine ⟨(if p.id == pid' then review_update act n a.id p else p),
                ?_, ?_⟩
              · show findProject
                  (updateProject s pid' (review_update act n a.id)) pid = _
                rw [findProject_updateProject s pid' pid (review_update act n a.id)
                  (fun q => rfl), h, Option.map_some']
              · by_cases hid : (p.id == pid') = true <;>
                  simp [hid, review_update]
            · rw [if_neg hact]; exact ⟨p, h, Nat.le_refl _⟩
  | opToggleChecklist a pid' idx =>
      refine ⟨p, ?_, Nat.le_refl _⟩
      have hp : (step s (Op.opToggleChecklist a pid' idx)).projects =
          s.projects := by
        simp only [step, toggle_checklist]
        repeat' split
        all_goals simp
      unfold findProject
      rw [hp]
      exact h
  | opAddChecklistItem a pid' ph t =>
      refine ⟨p, ?_, Nat.le_refl _⟩
      have hp : (step s (Op.opAddChecklistItem a pid' ph t)).projects =
          s.projects := by
        simp only [step, add_checklist_item]
        repeat' split
        all_goals simp
      unfold findProject
      rw [hp]
      exact h
  | opReviewDocument a idx act n =>
      refine ⟨p, ?_, Nat.le_refl _⟩
      have hp : (step s (Op.opReviewDocument a idx act n)).projects =
          s.projects := by
        simp only [step, review_document]
        repeat' split
        all_goals simp
      unfold findProject
      rw [hp]
      exact h
  | opUploadDocument a pid' k ok =>
      refine ⟨p, ?_, Nat.le_refl _⟩
      have hp : (step s (Op.opUploadDocument a pid' k ok)).projects =
          s.projects := by
        simp only [step, upload_document]
        repeat' split
        all_goals simp
      unfold findProject
      rw [hp]
      exact h
  | opToggleUser a uid =>
      refine ⟨p, ?_, Nat.le_refl _⟩
      have hp : (step s (Op.opToggleUser a uid)).projects = s.projects := by
        simp only [step, toggle_user]
        repeat' split
        all_goals simp
      unfold findProject
      rw [hp]
      exact h
  | opCreateProject a g cid ty T now =>
      simp only [step]
      unfold create_project
      by_cases hrole : (a.role == "glab_assessor") = true
      · rw [if_pos hrole]; exact ⟨p, h, Nat.le_refl _⟩
      · rw [if_neg hrole]
        dsimp only
        cases hglab : (if is_gea a = true then g else a.glab_id).bind (findGlab s) with
        | none => dsimp only; exact ⟨p, h, Nat.le_refl _⟩
        | some glab =>
            dsimp only
            refine ⟨p, ?_, Nat.le_refl _⟩
            show (s.projects ++ [_]).find? (fun q => q.id == pid) = some p
            rw [List.find?_append]
            unfold findProject at h
            rw [h]
            rfl
  | opAssignAssessor a pid' aid =>
      simp only [step]
      unfold assign_assessor
      cases hf : findProject s pid' with
      | none => exact ⟨p, h, Nat.le_refl _⟩
      | some p0 =>
          dsimp only
          by_cases h1 : (a.role == "glab_admin" && some p0.glab_id != a.glab_id) = true
          · rw [if_pos h1]; exact ⟨p, h, Nat.le_refl _⟩
          · rw [if_neg h1]
            by_cases h2 : (!is_gea a && a.role != "glab_admin") = true
            · rw [if_pos h2]; exact ⟨p, h, Nat.le_refl _⟩
            · rw [if_neg h2]
              cases hu : findUser s aid with
              | none => exact ⟨p, h, Nat.le_refl _⟩
              | some u =>
                  dsimp only
                  by_cases h3 : (u.glab_id != some p0.glab_id) = true
                  · rw [if_pos h3]; exact ⟨p, h, Nat.le_refl _⟩
                  · rw [if_neg h3]
                    by_cases h4 : (!(p0.assessors.contains u.id)) = true
                    · rw [if_pos h4]
                      refine ⟨(if p.id == pid' then assign_update u.id p else p),
                        ?_, ?_⟩
                      · show findProject
                          (updateProject s pid' (assign_update u.id)) pid = _
                        rw [findProject_updateProject s pid' pid
                          (assign_update u.id) (fun q => rfl), h, Option.map_some']
                      · by_cases hid : (p.id == pid') = true <;>
                          simp [hid, assign_update]
                    · rw [if_neg h4]; exact ⟨p, h, Nat.le_refl _⟩
  | opRemoveAssessor a pid' aid =>
      simp only [step]
      unfold remove_assessor
      cases hf : findProject s pid' with
      | none => exact ⟨p, h, Nat.le_refl _⟩
      | some p0 =>
          dsimp only
          by_cases h1 : (a.role == "glab_admin" && some p0.glab_id != a.glab_id) = true
          · rw [if_pos h1]; exact ⟨p, h, Nat.le_refl _⟩
          · rw [if_neg h1]
            by_cases h2 : (!is_gea a && a.role != "glab_admin") = true
            · rw [if_pos h2]; exact ⟨p, h, Nat.le_refl _⟩
            · rw [if_neg h2]
              cases hu : findUser s aid with
              | none => exact ⟨p, h, Nat.le_refl _⟩
              | some u =>
                  dsimp only
                  by_cases h3 : (p0.assessors.contains u.id) = true
                  · rw [if_pos h3]
                    refine ⟨(if p.id == pid' then remove_update u.id p else p),
                      ?_, ?_⟩
                    · show findProject
                        (updateProject s pid' (remove_update u.id)) pid = _
                      rw [findProject_updateProject s pid' pid
                        (remove_update u.id) (fun q => rfl), h, Option.map_some']
                    · by_cases hid : (p.id == pid') = true <;>
                        simp [hid, remove_update]
                  · rw [if_neg h3]; exact ⟨p, h, Nat.le_refl _⟩
  | opRunReminders today => exact ⟨p, h, Nat.le_refl _⟩
  | opViewProject a pid' => exact ⟨p, h, Nat.le_refl _⟩
  | opViewClient a cid => exact ⟨p, h, Nat.le_refl _⟩
  | opDownloadDocument a idx => exact ⟨p, h, Nat.le_refl _⟩

/-- A run of operations never lowers an existing project's phase. -/
theorem run_phase_mono :
    ∀ (ops : List Op) (s : St) (pid : Nat) (p : Project),
      findProject s pid = some p →
      ∃ q, findProject (run s ops) pid = some q ∧
        p.current_phase ≤ q.current_phase
  | [], _, _, p, h => ⟨p, h, Nat.le_refl _⟩
  | o :: ops, s, pid, p, h => by
      obtain ⟨q, hq, hle⟩ := step_phase_mono s o pid p h
      obtain ⟨r, hr, hle2⟩ := run_phase_mono ops (step s o) pid q hq
      exact ⟨r, by simpa [run] using hr, Nat.le_trans hle hle2⟩

/-- Claim C3: across every sequence of portal operations a project's
`current_phase` never decreases — no handler regresses a phase — and every
project row inserted by `create_project` enters the pipeline at phase 1. -/
theorem c3_phase_never_decreases :
    (∀ (s : St) (ops : List Op) (pid : Nat) (p p' : Project),
      findProject s pid = some p → findProject (run s ops) pid = some p' →
      p.current_phase ≤ p'.current_phase) ∧
    (∀ (s : St) (a : User) (g : Option Nat) (cid : Nat) (ty : String) (T : F64)
        (now : DateT),
      (create_project s a g cid ty T now).1.projects = s.projects ∨
        ∃ q, (create_project s a g cid ty T now).1.projects =
            s.projects ++ [q] ∧ q.current_phase = 1) := by
  constructor
  · intro s ops pid p p' h h'
    obtain ⟨q, hq, hle⟩ := run_phase_mono ops s pid p h
    rw [h'] at hq
    cases hq
    exact hle
  · intro s a g cid ty T now
    by_cases hrole : (a.role == "glab_assessor") = true
    · left
      simp [create_project, hrole]
    · rw [Bool.not_eq_true] at hrole
      cases hglab : (if is_gea a then g else a.glab_id).bind (findGlab s) with
      | none =>
          left
          simp only [create_project, hrole, Bool.false_eq_true, if_false]
          rw [hglab]
      | some glab =>
          right
          simp only [create_project, hrole, Bool.false_eq_true, if_false]
          rw [hglab]
          exact ⟨_, rfl, rfl⟩

/-- Witness for `c3_phase_never_decreases`: advancing the concrete project
of `stBase` raises its phase from 1 to 2, in particular never below 1. -/
theorem c3_phase_never_decreases_witness :
    findProject (run stBase [Op.opAdvance adminU 1]) 1 =
      some { project1 with current_phase := 2 } ∧
    project1.current_phase ≤ 2 :=
  ⟨by decide,
   c3_phase_never_decreases.1 stBase [Op.opAdvance adminU 1] 1 project1
     { project1 with current_phase := 2 } (by decide) (by decide)⟩

end GeaPortal
